import Mathlib

/-
Verification of the prompt-rendering core of the IAM MCP server
(`src/mcp_server_iam/prompt.py` together with the pydantic `Field`
constraints it declares on its parameters).

The development shallowly embeds the five prompt operations
(`analyze_job_market`, `save_jobs`, `mesh_resumes`, `generate_resume_prompt`,
`generate_cover_letter_prompt`) as pure Lean functions:

* Python strings are Lean `String`s (lists of Unicode scalar values).
* Python `str.lower` / `str.isalnum` / `str.isspace` are character-wise
  models (`pyToLower`, `pyIsAlnum`, `pyIsSpace`), tabulated exactly on the
  code points U+0000..U+00FF (every concrete input in this development lies
  in that range); code points above U+00FF are modeled as case-fixed and
  non-alphanumeric.  Note that Python's `str.isalnum` is Unicode aware, so
  Latin-1 letters such as `ã` ARE alphanumeric.
* `datetime.now().strftime("%Y-%m-%d")` is modeled by an explicit `today`
  argument; the source has no caller-supplied date for the resume and
  cover-letter prompts.
* The pydantic validation layer that FastMCP derives from the `Annotated`
  `Field` metadata (`min_length`, `ge`/`le`, `pattern`, `Literal` types) is
  modeled as a typed-error check performed before rendering, with fields
  checked in declaration order (pydantic reports all failing fields; the
  embedding returns the first, which is the only case any theorem relies
  on).  The error names follow the specification's taxonomy.
* Each operation returns, besides the rendered document, the exact target
  filename its text instructs the agent to use (`None` for
  `analyze_job_market`, which names no artifact), mirroring the
  dispatcher-facing contract `{document, filename | null}`.

Every template below is transcribed verbatim from the f-strings of
`prompt.py`, split at the interpolation points.
-/

namespace IamMcp

/-! ## Character-level models of the Python string primitives -/

/-- Character-wise model of Python `str.lower()`: exact on U+0000..U+00FF
(ASCII `A`-`Z` and the Latin-1 uppercase letters `À`-`Ö`, `Ø`-`Þ` map 32
code points up); code points above U+00FF are left unchanged. -/
def pyToLower (c : Char) : Char :=
  if (65 ≤ c.toNat ∧ c.toNat ≤ 90) ∨ (192 ≤ c.toNat ∧ c.toNat ≤ 214) ∨
      (216 ≤ c.toNat ∧ c.toNat ≤ 222) then
    Char.ofNat (c.toNat + 32)
  else c

/-- Character-wise model of Python `str.isalnum()` (true for Unicode
categories Lu/Ll/Lt/Lm/Lo/Nd/Nl/No), tabulated exactly on U+0000..U+00FF:
digits, ASCII letters, `ª ² ³ µ ¹ º ¼ ½ ¾` and the Latin-1 letters
U+00C0..U+00FF minus `×` and `÷`.  Code points above U+00FF are modeled as
non-alphanumeric. -/
def pyIsAlnum (c : Char) : Bool :=
  decide ((48 ≤ c.toNat ∧ c.toNat ≤ 57) ∨ (65 ≤ c.toNat ∧ c.toNat ≤ 90) ∨
    (97 ≤ c.toNat ∧ c.toNat ≤ 122) ∨ c.toNat = 170 ∨ c.toNat = 178 ∨
    c.toNat = 179 ∨ c.toNat = 181 ∨ c.toNat = 185 ∨ c.toNat = 186 ∨
    (188 ≤ c.toNat ∧ c.toNat ≤ 190) ∨
    (192 ≤ c.toNat ∧ c.toNat ≤ 255 ∧ c.toNat ≠ 215 ∧ c.toNat ≠ 247))

/-- Character-wise model of Python `str.isspace()` on U+0000..U+00FF
(space, TAB, LF, VT, FF, CR, FS-RS separators U+001C..U+001F, NEL U+0085,
NBSP U+00A0). -/
def pyIsSpace (c : Char) : Bool :=
  decide (c.toNat = 32 ∨ (9 ≤ c.toNat ∧ c.toNat ≤ 13) ∨
    (28 ≤ c.toNat ∧ c.toNat ≤ 31) ∨ c.toNat = 133 ∨ c.toNat = 160)

/-- Python truthiness of a `str | None` value: `None` and `""` are falsy. -/
def pyTruthy : Option String → Bool
  | none => false
  | some s => !(s == "")

/-- Python f-string interpolation of a `str | None` value:
`None` prints as the literal text `None`. -/
def pyStrOpt : Option String → String
  | none => "None"
  | some s => s

/-- Python `str(int)`. -/
def intStr (n : Int) : String := toString n

/-- The values admitted by the `Literal["linkedin", "indeed", "glassdoor", ""]`
annotation of `analyze_job_market`'s `platform` parameter. -/
inductive Platform where
  | linkedin
  | indeed
  | glassdoor
  | empty
deriving DecidableEq

/-- Python f-string interpolation of the `platform : Literal[...] | None`
value. -/
def platformStr : Option Platform → String
  | none => "None"
  | some Platform.linkedin => "linkedin"
  | some Platform.indeed => "indeed"
  | some Platform.glassdoor => "glassdoor"
  | some Platform.empty => ""

/-! ## The two sanitization policies -/

/-- Python `list.strip()`-style whitespace trimming on a character list
(model of `str.strip()` with no argument). -/
def pyStripList (l : List Char) : List Char :=
  ((l.dropWhile pyIsSpace).reverse.dropWhile pyIsSpace).reverse

/-- The legacy strip policy of `save_jobs` (prompt.py lines 131-132 and the
analogous city/country blocks): keep only characters with
`c.isalnum() or c in (" ", "-", "_")`, then `.strip()`, then
`.replace(" ", "_")`. -/
def legacySanitize (s : String) : String :=
  ⟨(pyStripList (s.toList.filter
      (fun c => pyIsAlnum c || c == ' ' || c == '-' || c == '_'))).map
    (fun c => if c == ' ' then '_' else c)⟩

/-- One character of the substitution pass of `_sanitize_for_filename`
(prompt.py line 394): `c if c.isalnum() or c in "-_" else "_"`. -/
def underscoreStep (c : Char) : Char :=
  if pyIsAlnum c || c == '-' || c == '_' then c else '_'

/-- Python `str.split("_")` on a character list: splits at every `'_'`,
keeping empty segments (so `"_a__"` gives `["", "a", "", ""]`). -/
def splitU : List Char → List (List Char)
  | [] => [[]]
  | c :: rest =>
    if c = '_' then [] :: splitU rest
    else
      match splitU rest with
      | [] => [[c]]
      | p :: ps => (c :: p) :: ps

/-- Python `"_".join` on character lists. -/
def joinU : List (List Char) → List Char
  | [] => []
  | [p] => p
  | p :: ps => p ++ '_' :: joinU ps

/-- The filename-token sanitizer `_sanitize_for_filename` (prompt.py lines
381-397): lower-case, replace every character that is not alphanumeric,
`-` or `_` by `_`, then drop empty `_`-separated parts and re-join with
single underscores.  (The `lru_cache` decorator memoizes a pure function
and is semantically transparent.) -/
def sanitizeForFilename (text : String) : String :=
  ⟨joinU ((splitU ((text.toList.map pyToLower).map underscoreStep)).filter
    (fun p => !p.isEmpty))⟩

/-! ## Validation layer and result type -/

/-- The specification's validation-error taxonomy, used here as the typed
rendering of the pydantic constraint kinds: `min_length` failures map to
`MissingRequiredField`, `ge`/`le` failures to `OutOfRange`, `pattern`
failures to `InvalidFilenamePattern`. -/
inductive ValidationError where
  | MissingRequiredField
  | CityRequiresCountry
  | InvalidPlatform
  | OutOfRange
  | InvalidFilenamePattern
deriving DecidableEq

/-- A rendered document together with the exact target filename its text
instructs the agent to use (`none` when the document names no artifact). -/
structure Rendered where
  document : String
  filename : Option String
deriving DecidableEq

deriving instance DecidableEq for Except

/-- Character class `[a-zA-Z0-9_-]` of the `resume_mesh_filename` pattern. -/
def meshPatternChar (c : Char) : Bool :=
  c.isAlphanum || c == '_' || c == '-'

/-- Decision procedure for the pydantic pattern `^[a-zA-Z0-9_\-]+\.md$` on
`mesh_resumes.resume_mesh_filename` (prompt.py line 229): a non-empty run
of `[a-zA-Z0-9_-]` followed by the literal `.md`.  (The Python-regex quirk
that `$` also matches before a final newline is not modeled.) -/
def matchesMeshPattern (s : String) : Bool :=
  let l := s.toList
  let n := l.length
  decide (4 ≤ n) && (l.drop (n - 3) == ['.', 'm', 'd']) &&
    (l.take (n - 3)).all meshPatternChar

/-! ## Filename builders -/

/-- The `filename_parts` list of `save_jobs` (prompt.py lines 134-151):
`[date, safe_role]`, then `safe_city` if `city` is truthy, then
`safe_country` if `country` is truthy, then `str(num_jobs)`. -/
def saveJobsFilenameParts (date role : String) (city country : Option String)
    (num_jobs : Int) : List String :=
  ([date, legacySanitize role] ++
      (if pyTruthy city then [legacySanitize (city.getD "")] else []) ++
      (if pyTruthy country then [legacySanitize (country.getD "")] else [])) ++
    [intStr num_jobs]

/-- `filename = "_".join(filename_parts) + ".json"` (prompt.py line 152). -/
def saveJobsFilename (date role : String) (city country : Option String)
    (num_jobs : Int) : String :=
  String.intercalate "_" (saveJobsFilenameParts date role city country num_jobs)
    ++ ".json"

/-- The mesh-resume target filename `{resume_mesh_filename}_{date}.md`
(prompt.py lines 373-374). -/
def meshFilename (resume_mesh_filename date : String) : String :=
  resume_mesh_filename ++ "_" ++ date ++ ".md"

/-- The resume target filename `{date}_{safe_company}_{safe_role}_resume.md`
(prompt.py lines 504-505), where `date` is the current date. -/
def generateResumeFilename (today role company : String) : String :=
  today ++ "_" ++ sanitizeForFilename company ++ "_" ++
    sanitizeForFilename role ++ "_resume.md"

/-- The cover-letter target filename
`{date}_{safe_company}_{safe_role}_cover_letter.md` (prompt.py lines
624-625). -/
def generateCoverLetterFilename (today role company : String) : String :=
  today ++ "_" ++ sanitizeForFilename company ++ "_" ++
    sanitizeForFilename role ++ "_cover_letter.md"

/-- The constant `resume_markdown_file` local of `generate_resume_prompt`
(prompt.py line 432). -/
def resumeMarkdownFile : String := "`resume mesh markdown file`"

/-! ## Templates, transcribed verbatim from the f-strings of prompt.py -/

-- ===== analyze template segments =====
def analyzeSeg0 : String := "\n    # System / Instruction Prompt for LLM\n    You are a data-driven AI assistant, your task is to analyze the job market for the top "
def analyzeSeg1 : String := " positions matching a given "
def analyzeSeg2 : String := ", optionally filtered by "
def analyzeSeg3 : String := " and "
def analyzeSeg4 : String := ", and sourced from "
def analyzeSeg5 : String := ".\n    Before you run any tools or compose your final output, **outline your high-level approach** in 3–5 bullet points, showing that you’ve thought through every step.\n\n    ## Task Definition\n    Analyze the job market for:\n    - **Role:** `"
def analyzeSeg6 : String := "`\n    - **Location:**  \n    - City: `"
def analyzeSeg7 : String := "` (optional)  \n    - Country: `"
def analyzeSeg8 : String := "` (required if city is given)  \n    - **Platform:** `"
def analyzeSeg9 : String := "` (must be one of `linkedin`, `indeed`, `glassdoor`, or empty)\n\n    ## Pre-Execution Checklist\n    1. **Validate inputs**  \n    - If `city` is non-empty, ensure `country` is also provided.  \n    - If `platform` is non-empty, ensure it is one of `linkedin`, `indeed`, or `glassdoor`.  \n    2. **Plan your analysis**  \n    - Decide which fields to extract (`title`, `company`, `type`, `description`, `salary`, `work_arrangement`).  \n    - Determine how you’ll aggregate and summarize skills/keywords and salary data.  \n\n    ## Execution Steps\n    1. **Invoke MCP tool**  \n    - run `search_jobs` mcp tool with suitable roles, city, country, platform and num_jobs.\n    2. **Extract & Review**  \n    - Pull out `title`, `company`, `type` (e.g., Full-time/Contract), `description`, `salary` (if present), `remote/onsite`.  \n    3. **Aggregate Insights**  \n    - **Top roles:** List and count unique job titles.  \n    - **Key skills & keywords:** Identify the most frequent.  \n    - **Salary trends:** Compute average, median, range.  \n    - **Work arrangement:** Tally remote vs. onsite vs. hybrid.  \n    4. **Draft Markdown Report**  \n    - Use headings (`## Most Common Roles`, `## Skills & Keywords`, etc.).  \n    - Present tables or bullet lists for clarity.  \n    - Conclude with a brief summary highlighting any surprises or actionable takeaways.\n\n    ## Output\n    Produce a markdown-formatted report under these sections:\n    1. **Approach Overview** (your pre-execution bullets)  \n    2. **Data Summary**  \n    3. **Insights & Trends**  \n    4. **Recommendations** (optional: e.g., “Consider upskilling in X…”)\n\n    Thank you for your meticulous analysis.  \n    "

def analyzeJobMarketBody (role : String) (city country : Option String) (platform : Option Platform) (num_jobs : Int) : String :=
  analyzeSeg0 ++ intStr num_jobs ++ analyzeSeg1 ++ role ++ analyzeSeg2 ++ pyStrOpt city ++ analyzeSeg3 ++ pyStrOpt country ++ analyzeSeg4 ++ platformStr platform ++ analyzeSeg5 ++ role ++ analyzeSeg6 ++ pyStrOpt city ++ analyzeSeg7 ++ pyStrOpt country ++ analyzeSeg8 ++ platformStr platform ++ analyzeSeg9

-- ===== save template segments =====
def saveSeg0 : String := "\n# System Instructions for Saving Job Search Results\n\nYou are tasked with saving job search results to a structured JSON file. Follow these instructions precisely:\n\n## File Location and Naming\n- **Directory**: Save to `"
def saveSeg1 : String := "` directory\n- **Filename**: `"
def saveSeg2 : String := "`\n- **Format**: JSON array containing job objects\n\n## Required JSON Structure\nEach job must be saved with this exact structure:\n\n```json\n[\n  \x7b\n    \"job_id\": \"string - unique identifier for the job\",\n    \"title\": \"string - job title/position name\", \n    \"company\": \"string - employer/company name\",\n    \"city\": \"string - job location city\",\n    \"country\": \"string - job location country\",\n    \"description\": \"string - job description or summary\",\n    \"apply_link\": \"string - application URL or \x27Not provided\x27\",\n    \"saved_date\": \""
def saveSeg3 : String := "\",\n    \"search_criteria\": \x7b\n      \"role\": \""
def saveSeg4 : String := "\",\n      \"city\": \""
def saveSeg5 : String := "\",\n      \"country\": \""
def saveSeg6 : String := "\",\n      \"date_searched\": \""
def saveSeg7 : String := "\"\n    \x7d\n  \x7d\n]\n```\n\n## Critical Instructions\n\n1. **Create the directory** `"
def saveSeg8 : String := "` if it doesn\x27t exist\n2. **Use the EXACT filename format**: `"
def saveSeg9 : String := "`\n3. **Ensure valid JSON**: \n   - Proper escaping of quotes and special characters\n   - No trailing commas\n   - Proper array structure with square brackets\n4. **Handle missing data**: Use `null` for missing fields, never leave undefined\n5. **Preserve data integrity**: Don\x27t modify or truncate important information\n6. **Add metadata**: Include search criteria and save date for tracking\n\n## Data Validation\n- Verify all job objects have the required fields\n- Ensure `apply_link` is a valid URL or \"Not provided\"\n- Check that `job_id` is unique within the array\n- Validate that the JSON is properly formatted before saving\n\n## Success Confirmation\nAfter saving, confirm:\n- File was created at the correct path\n- JSON is valid and parseable  \n- All "
def saveSeg10 : String := " jobs were saved successfully\n- File size is reasonable (not empty or corrupted)\n\n## IMPORTANT\n- Use the `write_file` tool to write the JSON file with the exact filename and structure specified above.\n"

def saveJobsBody (jobs_dir date role : String) (city country : Option String) (num_jobs : Int) : String :=
  saveSeg0 ++ jobs_dir ++ saveSeg1 ++ saveJobsFilename date role city country num_jobs ++ saveSeg2 ++ date ++ saveSeg3 ++ role ++ saveSeg4 ++ pyStrOpt city ++ saveSeg5 ++ pyStrOpt country ++ saveSeg6 ++ date ++ saveSeg7 ++ jobs_dir ++ saveSeg8 ++ saveJobsFilename date role city country num_jobs ++ saveSeg9 ++ intStr num_jobs ++ saveSeg10

-- ===== mesh template segments =====
def meshSeg0 : String := "\n# System Instructions for Creating a Resume Mesh\nYou have been given multiple resumes (CVs) of the same person. Mesh them into one unified resume by applying the following rules:\n- Include every section from all the input resumes. Don\x27t drop any section, even if some sections cover similar information.\n- If two resumes have the exact same section title (such as Skills), merge their contents into a single list and avoid duplicates.\n- If two resumes have sections with different titles for similar content (for example, Summary vs Professional Summary), include both sections in the combined resume.\n- Use clear, descriptive section headings and list all details under each section (for example, list all jobs under Work Experience).\n\n## Process\n\n### 1. Conversion (MCP host)\n- For each attached resume file, convert PDF files to Markdown format. Maintain the original layout and formatting.\n- For files already in text/markdown format, proceed directly to preprocessing\n\n### 2. Pre-processing (MCP host)\n- CLEAN bad grammar and FIX typos in each resume\n- DO NOT alter the meaning or add new content\n- PRESERVE all original information and context\n\n### 3. Extraction (LLM)\n- Extract content under each section\n- Identify other clearly labeled sections and extract their content\n- Preserve dates, locations, company names, and specific achievements\n\n### 4. Merging and Alignment (LLM)\n- Group entries by section (for same sections) OR entity (same job title, employer, and time frame) across all resumes\n- For each group, include Employer, Title, Location, and Dates ONCE\n- Combine all related bullet points and paragraphs from different resumes\n- Maintain chronological order within sections\n\n## Resume Mesh Example 1\n```\n<resume1>\n\nSummary\n\nEnterprise data and AI architect, with 10+ years of experience designing and delivering cloud-scale AI, data-analytics and backend platforms in finance, IoT and eCommerce.\n\nCompany X, Miami, USA\nTech Specialist, August 2022 – December 2024\n- Led AI-based portfolio to enhance operational efficiency\n\n</resume1>\n\n<resume2>\n\nSummary\n\nComputer Scientist with expertise in enterprise data architecture, implementing data platforms, and integrating diverse data sources for AI/ML activities.\n\nCompany X, Miami, USA\nSolutions Architect Specialist, August 2022 – December 2024\n- Leadership and technical expertise across multiple value streams\n\n</resume2>\n\n<resumeMeshed>\n\n## Summary\n\nEnterprise data and AI architect, with 10+ years of experience designing and delivering cloud-scale AI, data-analytics and backend platforms in finance, IoT and eCommerce.\n\nComputer Scientist with expertise in enterprise data architecture, implementing data platforms, and integrating diverse data sources for AI/ML activities.\n\n## Company X\n**Tech Specialist** | Miami, USA | August 2022 – December 2024\n**Solutions Architect Specialist** | Miami, USA | August 2022 – December 2024\n\n- Led AI-based portfolio to enhance operational efficiency\n- Leadership and technical expertise across multiple value streams\n\n</resumeMeshed>\n```\n\n## Resume Mesh Example 2\n```\n<resume1>\n\nSummary\n\nEnterprise data and AI architect, with 10+ years of experience designing and delivering cloud-scale AI, data-analytics and backend platforms in finance, IoT and eCommerce.\n\nCompany X, Miami, USA\nTech Specialist, August 2022 – December 2024\n- Led AI-based portfolio to enhance operational efficiency\n\n</resume1>\n\n<resume2>\n\nProfessional Summary\n\nComputer Scientist with expertise in enterprise data architecture, implementing data platforms, and integrating diverse data sources for AI/ML activities.\n\nCompany X, Miami, USA\nSolutions Architect Specialist, August 2022 – December 2024\n- Leadership and technical expertise across multiple value streams\n\n</resume2>\n\n<resumeMeshed>\n\n## Summary\n\nEnterprise data and AI architect, with 10+ years of experience designing and delivering cloud-scale AI, data-analytics and backend platforms in finance, IoT and eCommerce.\n\n## Professional Summary\n\nComputer Scientist with expertise in enterprise data architecture, implementing data platforms, and integrating diverse data sources for AI/ML activities.\n\n## Company X\n**Tech Specialist** | Miami, USA | August 2022 – December 2024\n**Solutions Architect Specialist** | Miami, USA | August 2022 – December 2024\n\n- Led AI-based portfolio to enhance operational efficiency\n- Leadership and technical expertise across multiple value streams\n\n</resumeMeshed>\n```\n\n## Output\n- Generate the complete resume mesh as a valid markdown document\n- The markdown document shall optimize for LLM reading and understanding\n\n## Quality Requirements\n- Maintain professional tone and accuracy\n- Ensure no information loss from source resumes\n- Preserve specific achievements, metrics, skills and technical details\n- Use consistent formatting throughout the document\n\n## Save the resume mesh\n- Use the MCP tool `write_file` to save the generated resume mesh\n- The file shall be saved in the directory `"
def meshSeg1 : String := "` with the filename `"
def meshSeg2 : String := "_"
def meshSeg3 : String := ".md`\n- Use the EXACT filename format: `"
def meshSeg4 : String := "_"
def meshSeg5 : String := ".md`\n\n## IMPORTANT\n- Use the `write_file` tool to save the markdown file with the exact directory, filename and structure specified above.\n"

def meshResumesBody (save_directory resume_mesh_filename date : String) : String :=
  meshSeg0 ++ save_directory ++ meshSeg1 ++ resume_mesh_filename ++ meshSeg2 ++ date ++ meshSeg3 ++ resume_mesh_filename ++ meshSeg4 ++ date ++ meshSeg5

-- ===== resume template segments =====
def resumeSeg0 : String := "\n    # System Instructions for Generating a Resume\n\n    Act like a seasoned career consultant and resume expert specializing in crafting tailor-made resumes for job seekers. \n    - You are an expert certified resume writer, and an expert in ATS (Applicant Tacking Systems). \n    - You have a deep understanding of what hiring managers in various industries look for in candidates. \n    - Your expertise includes transforming job descriptions into compelling CV content.\n\n    Your sole job now is to produce a Markdown resume that aligns perfectly with the `"
def resumeSeg1 : String := "` Job Description (JD) at `"
def resumeSeg2 : String := "`. \n    **You MUST ONLY use information found in the provided `mcp resource` and in the `<job_description>`**—no outside knowledge, no invented dates, no assumptions. If the information isn\x27t in the `mcp resource`, ask a clarifying question.\n    Job Description:\n    <job_description>\n    "
def resumeSeg3 : String := "\n    </job_description>\n\n    Use your extensive experience to analyze the job description, identifying key skills and qualifications required.\n\n    ## INSTRUCTIONS\n\n    ### 1. Analyze the job description:\n    - Load the job description from the provided `<job_description>`.\n    - List all requirements verbatim in the following categories:\n        - Technical (languages, frameworks, tools)\n        - Hard skills\n        - Soft skills\n\n    ### 2. Verify source scope:\n    - State: \"All subsequent resume content will only be drawn from "
def resumeSeg4 : String := ".\"\n    - If you detect a requirement not covered in resume_aggregation, STOP and ASK:\n        - \"The JD requires ______ but I don\x27t see that in resume_aggregation. Please provide or clarify.\"\n\n    ### 3. Map and extract relevant information:\n    - For each JD requirement, locate matching bullet(s) or sections in "
def resumeSeg5 : String := ".\n    - Copy EXACT text or very-tight abstractions—no invented metrics or projects or job duties.\n    - When selecting bullets, prefer ones that contain BOTH the required skill/keyword AND an achievement.\n\n    ### 4. Assemble the ATS-optimized Markdown resume:\n    - CREATE a concise, clean Markdown resume.\n        - Sections, as in the "
def resumeSeg6 : String := "\n    - 3 to 4 bullets each, directly lifted or minimally edited from "
def resumeSeg7 : String := ".\n    - For each role, structure bullets to showcase:\n        - Required skills/keywords from JD (for ATS optimization)\n        - Related achievements when available (e.g., \"Led Python development... resulting in 20% performance improvement\")\n        - BALANCE between responsibilities and achievements based on what exists in the source\n    - AVOID FANCY WORDS. USE SIMPLE BUT MEANINGFUL WORDS.\n    - Education & Certs: Copy EXACTLY from "
def resumeSeg8 : String := ".\n\n    ### 5. Formatting Rules:\n    - Use EXACT keywords from the JD (for ATS alignment).\n    - Brief (LESS THAN 40 words) introductory section, IF AVAILABLE, typically labeled Introduction, Summary, About Me, Profile, or similar—used to describe the applicant at a high level.\n    - Bullets should be LESS THAN 40 words.\n    - NO superlatives or invented achievements.\n    - Use ACTIVE verbs and maintain a professional tone.\n\n    ### 6. Self-check and audit:\n    - CONFIRM: \"All content sourced 100% from "
def resumeSeg9 : String := ".\"\n\n    ### 7. Output:\n    - Provide ONLY the final Markdown document.\n    - If any gap appears, stop and ask a clarifying question instead of guessing.\n\n    ## QUALITY REQUIREMENTS\n    - Maintain professional tone and accuracy\n    - Ensure no information loss from source resumes\n    - Preserve specific achievements, metrics, skills and technical details\n    - Use consistent formatting throughout the document\n    - MANDATORY: ACHIEVE 90%+ on ATS requirements, technologies and skills match\n\n    ## Save the resume mesh\n    - Use the MCP tool `write_file` to save the generated resume mesh\n    - The file shall be saved in the directory `"
def resumeSeg10 : String := "` with the filename `"
def resumeSeg11 : String := "_"
def resumeSeg12 : String := "_"
def resumeSeg13 : String := "_resume.md`\n    - Use the EXACT filename format: `"
def resumeSeg14 : String := "_"
def resumeSeg15 : String := "_"
def resumeSeg16 : String := "_resume.md`\n\n    ## IMPORTANT\n    - Use the `write_file` tool to save the markdown file with the exact directory, filename and structure specified above.\n    "

def generateResumeBody (today save_directory role company job_description : String) : String :=
  resumeSeg0 ++ role ++ resumeSeg1 ++ company ++ resumeSeg2 ++ job_description ++ resumeSeg3 ++ resumeMarkdownFile ++ resumeSeg4 ++ resumeMarkdownFile ++ resumeSeg5 ++ resumeMarkdownFile ++ resumeSeg6 ++ resumeMarkdownFile ++ resumeSeg7 ++ resumeMarkdownFile ++ resumeSeg8 ++ resumeMarkdownFile ++ resumeSeg9 ++ save_directory ++ resumeSeg10 ++ today ++ resumeSeg11 ++ sanitizeForFilename company ++ resumeSeg12 ++ sanitizeForFilename role ++ resumeSeg13 ++ today ++ resumeSeg14 ++ sanitizeForFilename company ++ resumeSeg15 ++ sanitizeForFilename role ++ resumeSeg16

-- ===== cover template segments =====
def coverSeg0 : String := "\n# System Instructions for Generating a Cover Letter\nAct like a seasoned career consultant and cover letter expert specializing in crafting tailor-made cover letter for job seekers. \n- You are an expert certified cover letter writer, and an expert in ATS (Applicant Tacking Systems). \n- You have a deep understanding of what hiring managers in various industries look for in candidates. \n- Your expertise includes transforming job descriptions into compelling cover letter content. \n- Create a compelling cover letter for the \""
def coverSeg1 : String := "\" position at "
def coverSeg2 : String := ".\n\n## SOURCES (Use ONLY these)\n### 1. Job Description: \n<job_description>\n"
def coverSeg3 : String := "\n</job_description>\n### 2. Resume: Use the `resume` file markdown.\n\n## CONSTRAINTS\n- No invented information, dates, or metrics\n- If required information is missing, ask a clarifying question\n- Use exact keywords from job description for ATS optimization\n\n## INSTRUCTIONS\n\n### 1. Requirements Analysis\nExtract and categorize ALL job requirements:\n- Technical Skills: (languages, frameworks, tools)\n- Professional Skills: (experience, qualifications)  \n- Soft Skills: (leadership, communication, etc.)\n\n### 2. Research Context\nIf you have web search capability:\n- Find 1-2 key facts about "
def coverSeg4 : String := " (mission, recent news, industry position)\nIf you don\x27t have web search:\n- Use information from job description about company\n\n### 3. Create AIDA Cover Letter\n\nStructure with these markdown sections:\n\n## Cover Letter for "
def coverSeg5 : String := " at "
def coverSeg6 : String := "\n\n### Opening (Attention)\n- Engaging hook that shows knowledge of company and role\n- Connect your background to their mission/values\n- 2-3 sentences maximum\n\n### Qualifications (Interest)  \n- \"I bring the following qualifications for this "
def coverSeg7 : String := " role:\"\n- 3-4 bullet points mapping your experience (from MCP resource) to their top requirements\n- Focus on exact keyword matches from job description\n- Include achievements where available\n\n### Value Proposition (Desire)\n- 2-3 sentences showing unique value you bring\n- Connect your specific achievements to their business goals\n- Demonstrate understanding of their challenges/opportunities\n\n### Call to Action (Action)\n- Professional closing with interview invitation\n- Preferred contact method (if available in MCP resource)\n- Thank you and next steps\n\n## FORMATTING\n- Professional, conversational tone\n- Concise paragraphs (2-4 sentences)\n- Strong action verbs\n- Embed job description keywords naturally\n\n## OUTPUT\nProvide ONLY the final markdown cover letter. No analysis, reasoning, or audit logs in the output.\n\n## QUALITY CHECK\nBefore finalizing, verify:\n- All content sourced from provided materials\n- Job keywords naturally integrated  \n- Professional yet personable tone\n- Clear value proposition and call to action\n\n ## Save the cover letter\n- Use the MCP tool `write_file` to save the generated cover letter\n- The file shall be saved in the directory `"
def coverSeg8 : String := "` with the filename `"
def coverSeg9 : String := "_"
def coverSeg10 : String := "_"
def coverSeg11 : String := "_cover_letter.md`\n- Use the EXACT filename format: `"
def coverSeg12 : String := "_"
def coverSeg13 : String := "_"
def coverSeg14 : String := "_cover_letter.md`\n\n## IMPORTANT\n- Use the `write_file` tool to save the markdown file with the exact directory, filename and structure specified above.\n"

def generateCoverLetterBody (today save_directory role company job_description : String) : String :=
  coverSeg0 ++ sanitizeForFilename role ++ coverSeg1 ++ sanitizeForFilename company ++ coverSeg2 ++ job_description ++ coverSeg3 ++ sanitizeForFilename company ++ coverSeg4 ++ sanitizeForFilename role ++ coverSeg5 ++ sanitizeForFilename company ++ coverSeg6 ++ role ++ coverSeg7 ++ save_directory ++ coverSeg8 ++ today ++ coverSeg9 ++ sanitizeForFilename company ++ coverSeg10 ++ sanitizeForFilename role ++ coverSeg11 ++ today ++ coverSeg12 ++ sanitizeForFilename company ++ coverSeg13 ++ sanitizeForFilename role ++ coverSeg14


/-! ## The five operations -/

/-- `analyze_job_market` (prompt.py lines 8-93): pydantic checks
`role` `min_length=1` and `num_jobs` in 1..20, then renders.  There is no
cross-field city/country check anywhere in the code. -/
def analyzeJobMarket (role : String) (city country : Option String)
    (platform : Option Platform) (num_jobs : Int) :
    Except ValidationError Rendered :=
  if role.length < 1 then Except.error ValidationError.MissingRequiredField
  else if num_jobs < 1 ∨ 20 < num_jobs then Except.error ValidationError.OutOfRange
  else Except.ok ⟨analyzeJobMarketBody role city country platform num_jobs, none⟩

/-- `save_jobs` (prompt.py lines 96-215): pydantic checks `num_jobs` in
1..100 (no other field carries a constraint), then renders; the filename
is the `filename` local interpolated into the document. -/
def saveJobs (jobs_dir date role : String) (city country : Option String)
    (num_jobs : Int) : Except ValidationError Rendered :=
  if num_jobs < 1 ∨ 100 < num_jobs then Except.error ValidationError.OutOfRange
  else Except.ok ⟨saveJobsBody jobs_dir date role city country num_jobs,
    some (saveJobsFilename date role city country num_jobs)⟩

/-- `mesh_resumes` (prompt.py lines 218-378): pydantic checks
`save_directory` `min_length=1` and `resume_mesh_filename` against the
pattern `^[a-zA-Z0-9_\-]+\.md$`, then renders. -/
def meshResumes (save_directory resume_mesh_filename date : String) :
    Except ValidationError Rendered :=
  if save_directory.length < 1 then Except.error ValidationError.MissingRequiredField
  else if !(matchesMeshPattern resume_mesh_filename) then
    Except.error ValidationError.InvalidFilenamePattern
  else Except.ok ⟨meshResumesBody save_directory resume_mesh_filename date,
    some (meshFilename resume_mesh_filename date)⟩

/-- `generate_resume_prompt` (prompt.py lines 400-509): pydantic checks
`save_directory` and `company` `min_length=1`; the date is
`datetime.now().strftime("%Y-%m-%d")`, modeled as the explicit `today`
argument - the function has no date parameter. -/
def generateResumePrompt (today save_directory role company job_description :
    String) : Except ValidationError Rendered :=
  if save_directory.length < 1 then Except.error ValidationError.MissingRequiredField
  else if company.length < 1 then Except.error ValidationError.MissingRequiredField
  else Except.ok ⟨generateResumeBody today save_directory role company job_description,
    some (generateResumeFilename today role company)⟩

/-- `generate_cover_letter_prompt` (prompt.py lines 512-629): pydantic
checks `save_directory` `min_length=1` (the `company` of this kind carries
no constraint); the date is the current date, modeled as `today`. -/
def generateCoverLetterPrompt (today save_directory role company job_description :
    String) : Except ValidationError Rendered :=
  if save_directory.length < 1 then Except.error ValidationError.MissingRequiredField
  else Except.ok ⟨generateCoverLetterBody today save_directory role company job_description,
    some (generateCoverLetterFilename today role company)⟩

/-- The "no duplicate underscore" adjacency relation: among two adjacent
characters at most one is an underscore. -/
def notBothUnderscore (a b : Char) : Prop := ¬(a = '_' ∧ b = '_')

/-- The canonical-character predicate for the filename-token sanitizer:
every output character is `-`, `_`, or an alphanumeric character that is
fixed by lower-casing. -/
def SanCharOK (c : Char) : Prop :=
  c = '-' ∨ c = '_' ∨ (pyIsAlnum c = true ∧ pyToLower c = c)

/-- The ASCII character class `[a-z0-9_-]` claimed by the specification. -/
def isAsciiToken (c : Char) : Bool :=
  decide ((97 ≤ c.toNat ∧ c.toNat ≤ 122) ∨ (48 ≤ c.toNat ∧ c.toNat ≤ 57) ∨
    c = '_' ∨ c = '-')

/-- Specification-style formulation of the `save_jobs` filename
`{date}_{role}_{city}_{country}_{n}.json`: the city and country segments
are present exactly when the raw value is a non-empty string (Python
truthiness), written here by direct case analysis for comparison with the
code's `filename_parts` accumulation.  Note that a segment whose sanitized
token is empty still contributes an (empty) segment. -/
def specSaveJobsFilename (date role : String) (city country : Option String)
    (num_jobs : Int) : String :=
  String.intercalate "_"
    ([date, legacySanitize role] ++
      (match city with
       | none => []
       | some c => if c = "" then [] else [legacySanitize c]) ++
      (match country with
       | none => []
       | some c => if c = "" then [] else [legacySanitize c]) ++
      [intStr num_jobs]) ++ ".json"

/-- Substring search on character lists (used to state that a rendered
document contains a given piece of text). -/
def containsB (pat : List Char) : List Char → Bool
  | [] => pat.isEmpty
  | a :: rest => pat.isPrefixOf (a :: rest) || containsB pat rest

/-- `strContainsB pat s` holds when `pat` occurs as a contiguous substring
of `s`. -/
def strContainsB (pat s : String) : Bool := containsB pat.data s.data

/-! ## Helper lemmas about the character models -/

theorem ne_empty_length {s : String} (h : s ≠ "") : ¬(s.length < 1) := by
  intro hc
  have h0 : s.data.length = 0 := by
    have : s.length = 0 := by omega
    exact this
  exact h (String.ext (List.length_eq_zero.mp h0))

theorem toNat_ofNat_lt {n : Nat} (h : n < 55296) : (Char.ofNat n).toNat = n := by
  unfold Char.ofNat
  rw [dif_pos (Or.inl h)]
  rfl

/-- `pyToLower` is idempotent. -/
theorem pyToLower_idem (c : Char) : pyToLower (pyToLower c) = pyToLower c := by
  unfold pyToLower
  by_cases h : (65 ≤ c.toNat ∧ c.toNat ≤ 90) ∨ (192 ≤ c.toNat ∧ c.toNat ≤ 214) ∨
      (216 ≤ c.toNat ∧ c.toNat ≤ 222)
  · rw [if_pos h]
    have hlt : c.toNat + 32 < 55296 := by omega
    have h2 : ¬((65 ≤ (Char.ofNat (c.toNat + 32)).toNat ∧
        (Char.ofNat (c.toNat + 32)).toNat ≤ 90) ∨
        (192 ≤ (Char.ofNat (c.toNat + 32)).toNat ∧
        (Char.ofNat (c.toNat + 32)).toNat ≤ 214) ∨
        (216 ≤ (Char.ofNat (c.toNat + 32)).toNat ∧
        (Char.ofNat (c.toNat + 32)).toNat ≤ 222)) := by
      rw [toNat_ofNat_lt hlt]
      omega
    rw [if_neg h2]
  · rw [if_neg h, if_neg h]

/-! ## Helper lemmas about `splitU` and `joinU` -/

theorem splitU_ne_nil (l : List Char) : splitU l ≠ [] := by
  cases l with
  | nil => simp [splitU]
  | cons c rest =>
    simp only [splitU]
    split
    · simp
    · split <;> simp

/-- Every character of every part produced by `splitU` is a non-underscore
character of the input. -/
theorem mem_splitU (l : List Char) : ∀ p ∈ splitU l, ∀ c ∈ p, c ∈ l ∧ c ≠ '_' := by
  induction l with
  | nil =>
    intro p hp c hc
    simp [splitU] at hp
    subst hp
    simp at hc
  | cons a rest ih =>
    intro p hp c hc
    simp only [splitU] at hp
    by_cases h : a = '_'
    · rw [if_pos h] at hp
      rcases List.mem_cons.mp hp with h1 | h1
      · subst h1
        simp at hc
      · rcases ih p h1 c hc with ⟨h2, h3⟩
        exact ⟨List.mem_cons_of_mem _ h2, h3⟩
    · rw [if_neg h] at hp
      cases hr : splitU rest with
      | nil => exact absurd hr (splitU_ne_nil rest)
      | cons q qs =>
        rw [hr] at hp
        rcases List.mem_cons.mp hp with h1 | h1
        · subst h1
          rcases List.mem_cons.mp hc with h2 | h2
          · subst h2
            exact ⟨List.mem_cons_self .., h⟩
          · have hq : q ∈ splitU rest := by
              rw [hr]
              exact List.mem_cons_self ..
            rcases ih q hq c h2 with ⟨h3, h4⟩
            exact ⟨List.mem_cons_of_mem _ h3, h4⟩
        · have hq : p ∈ splitU rest := by
            rw [hr]
            exact List.mem_cons_of_mem _ h1
          rcases ih p hq c hc with ⟨h3, h4⟩
          exact ⟨List.mem_cons_of_mem _ h3, h4⟩

/-- Every character of `joinU ps` is an underscore or a character of one of
the parts. -/
theorem mem_joinU (ps : List (List Char)) :
    ∀ c ∈ joinU ps, c = '_' ∨ ∃ p ∈ ps, c ∈ p := by
  match ps with
  | [] =>
    intro c hc
    simp [joinU] at hc
  | [p] =>
    intro c hc
    right
    exact ⟨p, List.mem_cons_self .., hc⟩
  | p :: q :: t =>
    intro c hc
    rcases List.mem_append.mp hc with h1 | h1
    · right
      exact ⟨p, List.mem_cons_self .., h1⟩
    · rcases List.mem_cons.mp h1 with h2 | h2
      · exact Or.inl h2
      · rcases mem_joinU (q :: t) c h2 with h3 | ⟨r, hr, hcr⟩
        · exact Or.inl h3
        · exact Or.inr ⟨r, List.mem_cons_of_mem _ hr, hcr⟩

theorem joinU_ne_nil (ps : List (List Char)) (hne : ps ≠ [])
    (h : ∀ p ∈ ps, p ≠ []) : joinU ps ≠ [] := by
  match ps with
  | [] => exact absurd rfl hne
  | [p] => exact h p (List.mem_cons_self ..)
  | p :: q :: t =>
    have hp : p ≠ [] := h p (List.mem_cons_self ..)
    cases p with
    | nil => exact absurd rfl hp
    | cons a u => simp [joinU]

theorem joinU_head (ps : List (List Char))
    (h : ∀ p ∈ ps, p ≠ [] ∧ '_' ∉ p) : (joinU ps).head? ≠ some '_' := by
  match ps with
  | [] => simp [joinU]
  | [p] =>
    rcases h p (List.mem_cons_self ..) with ⟨h1, h2⟩
    show p.head? ≠ some '_'
    intro hcontr
    exact h2 (List.mem_of_mem_head? (by rw [hcontr]; exact rfl))
  | p :: q :: t =>
    rcases h p (List.mem_cons_self ..) with ⟨h1, h2⟩
    show (p ++ '_' :: joinU (q :: t)).head? ≠ some '_'
    rw [List.head?_append]
    cases p with
    | nil => exact absurd rfl h1
    | cons a u =>
      intro hcontr
      simp [Option.or] at hcontr
      exact h2 (by rw [hcontr]; exact List.mem_cons_self ..)

theorem joinU_getLast (ps : List (List Char))
    (h : ∀ p ∈ ps, p ≠ [] ∧ '_' ∉ p) : (joinU ps).getLast? ≠ some '_' := by
  match ps with
  | [] => simp [joinU]
  | [p] =>
    rcases h p (List.mem_cons_self ..) with ⟨h1, h2⟩
    show p.getLast? ≠ some '_'
    intro hcontr
    exact h2 (List.mem_of_mem_getLast? (by rw [hcontr]; exact rfl))
  | p :: q :: t =>
    have htail : ∀ r ∈ q :: t, r ≠ [] ∧ '_' ∉ r := by
      intro r hr
      exact h r (List.mem_cons_of_mem _ hr)
    have hjoin : joinU (q :: t) ≠ [] := by
      refine joinU_ne_nil (q :: t) (by simp) ?_
      intro r hr
      exact (htail r hr).1
    have ih := joinU_getLast (q :: t) htail
    show (p ++ '_' :: joinU (q :: t)).getLast? ≠ some '_'
    rw [List.getLast?_append]
    cases hj : joinU (q :: t) with
    | nil => exact absurd hj hjoin
    | cons b v =>
      rw [hj] at ih
      rcases Option.isSome_iff_exists.mp (List.getLast?_isSome.mpr
        (show b :: v ≠ [] by simp)) with ⟨x, hx⟩
      have hcons : ('_' :: b :: v).getLast? = (b :: v).getLast? := by
        simp [List.getLast?_cons_cons]
      rw [hcons, hx]
      rw [hx] at ih
      simpa [Option.or] using ih

theorem chain_of_no_underscore {p : List Char} (h : '_' ∉ p) :
    p.Chain' notBothUnderscore := by
  induction p with
  | nil => exact List.chain'_nil
  | cons a t ih =>
    rw [List.chain'_cons']
    constructor
    · intro y hy
      intro hcontr
      exact h (by rw [hcontr.1]; exact List.mem_cons_self ..)
    · exact ih (fun hm => h (List.mem_cons_of_mem _ hm))

/-- `joinU` of non-empty underscore-free parts never contains two adjacent
underscores. -/
theorem joinU_chain (ps : List (List Char))
    (h : ∀ p ∈ ps, p ≠ [] ∧ '_' ∉ p) :
    (joinU ps).Chain' notBothUnderscore := by
  match ps with
  | [] => exact List.chain'_nil
  | [p] => exact chain_of_no_underscore (h p (List.mem_cons_self ..)).2
  | p :: q :: t =>
    rcases h p (List.mem_cons_self ..) with ⟨h1, h2⟩
    have htail : ∀ r ∈ q :: t, r ≠ [] ∧ '_' ∉ r := by
      intro r hr
      exact h r (List.mem_cons_of_mem _ hr)
    show (p ++ '_' :: joinU (q :: t)).Chain' notBothUnderscore
    rw [List.chain'_append]
    refine ⟨chain_of_no_underscore h2, ?_, ?_⟩
    · rw [List.chain'_cons']
      constructor
      · intro y hy
        intro hcontr
        exact joinU_head (q :: t) htail (by rw [← hcontr.2]; exact hy)
      · exact joinU_chain (q :: t) htail
    · intro x hx y hy
      intro hcontr
      exact h2 (by rw [← hcontr.1]; exact List.mem_of_mem_getLast? hx)

/-- `splitU` inverts `joinU` on an underscore-free part glued in front. -/
theorem splitU_append (p rest : List Char) (h : '_' ∉ p) :
    splitU (p ++ '_' :: rest) = p :: splitU rest := by
  induction p with
  | nil =>
    show splitU ('_' :: rest) = [] :: splitU rest
    simp [splitU]
  | cons a u ih =>
    have ha : a ≠ '_' := fun hcontr => h (by rw [hcontr]; exact List.mem_cons_self ..)
    have hu : '_' ∉ u := fun hm => h (List.mem_cons_of_mem _ hm)
    show splitU (a :: (u ++ '_' :: rest)) = (a :: u) :: splitU rest
    simp only [splitU, if_neg ha]
    rw [ih hu]

theorem splitU_of_no_underscore (p : List Char) (h : '_' ∉ p) :
    splitU p = [p] := by
  induction p with
  | nil => rfl
  | cons a u ih =>
    have ha : a ≠ '_' := fun hcontr => h (by rw [hcontr]; exact List.mem_cons_self ..)
    have hu : '_' ∉ u := fun hm => h (List.mem_cons_of_mem _ hm)
    simp only [splitU, if_neg ha]
    rw [ih hu]

/-- Splitting `joinU ps` on underscores and dropping empty parts recovers
`ps`, provided every part is non-empty and underscore-free. -/
theorem splitU_joinU (ps : List (List Char))
    (h : ∀ p ∈ ps, p ≠ [] ∧ '_' ∉ p) :
    (splitU (joinU ps)).filter (fun p => !p.isEmpty) = ps := by
  match ps with
  | [] => rfl
  | [p] =>
    rcases h p (List.mem_cons_self ..) with ⟨h1, h2⟩
    show (splitU p).filter (fun p => !p.isEmpty) = [p]
    rw [splitU_of_no_underscore p h2]
    rw [List.filter_cons]
    have hne : (!p.isEmpty) = true := by simp [h1]
    rw [if_pos hne]
    rfl
  | p :: q :: t =>
    rcases h p (List.mem_cons_self ..) with ⟨h1, h2⟩
    have htail : ∀ r ∈ q :: t, r ≠ [] ∧ '_' ∉ r := by
      intro r hr
      exact h r (List.mem_cons_of_mem _ hr)
    show (splitU (p ++ '_' :: joinU (q :: t))).filter (fun p => !p.isEmpty)
      = p :: q :: t
    rw [splitU_append p (joinU (q :: t)) h2]
    rw [List.filter_cons]
    have : (!p.isEmpty) = true := by simp [h1]
    rw [if_pos this]
    rw [splitU_joinU (q :: t) htail]

/-! ## Character-level facts about `sanitizeForFilename` -/

theorem sanitize_char_source (s : String) :
    ∀ c ∈ (sanitizeForFilename s).toList,
      c = '_' ∨ (c ≠ '_' ∧ ∃ c₀ ∈ s.toList, underscoreStep (pyToLower c₀) = c) := by
  intro c hc
  have hc' : c ∈ joinU ((splitU ((s.toList.map pyToLower).map underscoreStep)).filter
      (fun p => !p.isEmpty)) := hc
  rcases mem_joinU _ c hc' with h | ⟨p, hp, hcp⟩
  · exact Or.inl h
  · rcases List.mem_filter.mp hp with ⟨hp1, _⟩
    rcases mem_splitU _ p hp1 c hcp with ⟨hcm, hcne⟩
    right
    refine ⟨hcne, ?_⟩
    rw [List.map_map] at hcm
    rcases List.mem_map.mp hcm with ⟨c₀, hc₀, hstep⟩
    exact ⟨c₀, hc₀, hstep⟩

theorem step_lower_ok (c₀ : Char) : SanCharOK (underscoreStep (pyToLower c₀)) := by
  by_cases hcond : (pyIsAlnum (pyToLower c₀) || pyToLower c₀ == '-'
      || pyToLower c₀ == '_') = true
  · have h1 : underscoreStep (pyToLower c₀) = pyToLower c₀ := by
      simp only [underscoreStep]
      rw [if_pos hcond]
    rw [h1]
    rcases Bool.or_eq_true .. |>.mp hcond with h2 | h2
    · rcases Bool.or_eq_true .. |>.mp h2 with h3 | h3
      · exact Or.inr (Or.inr ⟨h3, pyToLower_idem c₀⟩)
      · exact Or.inl (by simpa using h3)
    · exact Or.inr (Or.inl (by simpa using h2))
  · have h1 : underscoreStep (pyToLower c₀) = '_' := by
      simp only [underscoreStep]
      rw [if_neg hcond]
    rw [h1]
    exact Or.inr (Or.inl rfl)

/-- Every character of a sanitized token is `-`, `_`, or a lower-case-fixed
alphanumeric character. -/
theorem sanitize_char_ok (s : String) :
    ∀ c ∈ (sanitizeForFilename s).toList, SanCharOK c := by
  intro c hc
  rcases sanitize_char_source s c hc with h | ⟨hne, c₀, hc₀, hstep⟩
  · exact Or.inr (Or.inl h)
  · rw [← hstep]
    exact step_lower_ok c₀

theorem step_lower_step (c₀ : Char) :
    underscoreStep (pyToLower (underscoreStep (pyToLower c₀)))
      = underscoreStep (pyToLower c₀) := by
  by_cases hcond : (pyIsAlnum (pyToLower c₀) || pyToLower c₀ == '-'
      || pyToLower c₀ == '_') = true
  · have h1 : underscoreStep (pyToLower c₀) = pyToLower c₀ := by
      simp only [underscoreStep]
      rw [if_pos hcond]
    rw [h1, pyToLower_idem c₀, h1]
  · have h1 : underscoreStep (pyToLower c₀) = '_' := by
      simp only [underscoreStep]
      rw [if_neg hcond]
    rw [h1]
    decide

/-- A second sanitization pass leaves every character unchanged. -/
theorem sanitize_self_map (s : String) :
    ∀ c ∈ (sanitizeForFilename s).toList, underscoreStep (pyToLower c) = c := by
  intro c hc
  rcases sanitize_char_source s c hc with h | ⟨hne, c₀, hc₀, hstep⟩
  · rw [h]
    decide
  · rw [← hstep]
    exact step_lower_step c₀

/-- The parts from which a sanitized token is joined are non-empty and
underscore-free. -/
theorem sanitizeForFilename_parts (s : String) :
    ∀ p ∈ (splitU ((s.toList.map pyToLower).map underscoreStep)).filter
      (fun p => !p.isEmpty), p ≠ [] ∧ '_' ∉ p := by
  intro p hp
  rcases List.mem_filter.mp hp with ⟨hp1, hp2⟩
  constructor
  · intro hcontr
    subst hcontr
    simp at hp2
  · intro hmem
    exact (mem_splitU _ p hp1 '_' hmem).2 rfl

/-- ASCII-only inputs sanitize to characters of `[a-z0-9_-]`. -/
theorem sanitize_ascii (s : String) (hs : ∀ c ∈ s.toList, c.toNat < 128) :
    ∀ c ∈ (sanitizeForFilename s).toList, isAsciiToken c = true := by
  intro c hc
  rcases sanitize_char_source s c hc with h | ⟨hne, c₀, hc₀, hstep⟩
  · rw [h]
    decide
  · have h128 : c₀.toNat < 128 := hs c₀ hc₀
    rw [← hstep]
    by_cases hup : (65 ≤ c₀.toNat ∧ c₀.toNat ≤ 90) ∨
        (192 ≤ c₀.toNat ∧ c₀.toNat ≤ 214) ∨ (216 ≤ c₀.toNat ∧ c₀.toNat ≤ 222)
    · have hlow : pyToLower c₀ = Char.ofNat (c₀.toNat + 32) := by
        simp only [pyToLower]
        rw [if_pos hup]
      have ht : (pyToLower c₀).toNat = c₀.toNat + 32 := by
        rw [hlow]
        exact toNat_ofNat_lt (by omega)
      have halnum : pyIsAlnum (pyToLower c₀) = true := by
        simp only [pyIsAlnum, decide_eq_true_eq]
        omega
      have hstep2 : underscoreStep (pyToLower c₀) = pyToLower c₀ := by
        simp only [underscoreStep, halnum, Bool.true_or]
        simp
      rw [hstep2]
      simp only [isAsciiToken, decide_eq_true_eq]
      omega
    · have hlow : pyToLower c₀ = c₀ := by
        simp only [pyToLower]
        rw [if_neg hup]
      rw [hlow]
      by_cases hcond : (pyIsAlnum c₀ || c₀ == '-' || c₀ == '_') = true
      · have hstep2 : underscoreStep c₀ = c₀ := by
          simp only [underscoreStep]
          rw [if_pos hcond]
        rw [hstep2]
        rcases Bool.or_eq_true .. |>.mp hcond with h2 | h2
        · rcases Bool.or_eq_true .. |>.mp h2 with h3 | h3
          · simp only [pyIsAlnum, decide_eq_true_eq] at h3
            simp only [isAsciiToken, decide_eq_true_eq]
            omega
          · have : c₀ = '-' := by simpa using h3
            rw [this]
            decide
        · have : c₀ = '_' := by simpa using h2
          rw [this]
          decide
      · have hstep2 : underscoreStep c₀ = '_' := by
          simp only [underscoreStep]
          rw [if_neg hcond]
        rw [hstep2]
        decide

/-- The filename-token sanitizer is idempotent (shared core of claim C8). -/
theorem sanitizeForFilename_idem_core (s : String) :
    sanitizeForFilename (sanitizeForFilename s) = sanitizeForFilename s := by
  have hparts := sanitizeForFilename_parts s
  have hmap : ((sanitizeForFilename s).toList.map pyToLower).map underscoreStep
      = (sanitizeForFilename s).toList := by
    rw [List.map_map]
    calc List.map (underscoreStep ∘ pyToLower) (sanitizeForFilename s).toList
        = List.map id (sanitizeForFilename s).toList :=
          List.map_congr_left (fun a ha => sanitize_self_map s a ha)
      _ = (sanitizeForFilename s).toList := List.map_id _
  show String.mk (joinU ((splitU (((sanitizeForFilename s).toList.map
      pyToLower).map underscoreStep)).filter (fun p => !p.isEmpty)))
    = sanitizeForFilename s
  rw [hmap]
  have htl : (sanitizeForFilename s).toList
      = joinU ((splitU ((s.toList.map pyToLower).map underscoreStep)).filter
        (fun p => !p.isEmpty)) := rfl
  rw [htl, splitU_joinU _ hparts]
  rfl

/-! ## Helper lemmas about the legacy policy, filenames and substring search -/

theorem mem_pyStripList {l : List Char} {c : Char} (h : c ∈ pyStripList l) :
    c ∈ l := by
  unfold pyStripList at h
  rw [List.mem_reverse] at h
  have h2 : c ∈ (l.dropWhile pyIsSpace).reverse :=
    (List.dropWhile_sublist _).subset h
  rw [List.mem_reverse] at h2
  exact (List.dropWhile_sublist _).subset h2

/-- Every character of a legacy-sanitized token is alphanumeric, `-` or `_`
(spaces have been replaced, everything else stripped). -/
theorem legacy_char_class (s : String) :
    ∀ c ∈ (legacySanitize s).toList,
      pyIsAlnum c = true ∨ c = '-' ∨ c = '_' := by
  intro c hc
  have hc' : c ∈ (pyStripList (s.toList.filter
      (fun c => pyIsAlnum c || c == ' ' || c == '-' || c == '_'))).map
      (fun c => if c == ' ' then '_' else c) := hc
  rcases List.mem_map.mp hc' with ⟨d, hd, hdc⟩
  have hd2 := mem_pyStripList hd
  rcases List.mem_filter.mp hd2 with ⟨_, hcond⟩
  by_cases hsp : (d == ' ') = true
  · have : c = '_' := by
      rw [← hdc]
      simp [hsp]
    exact Or.inr (Or.inr this)
  · have hcd : c = d := by
      rw [← hdc]
      simp [hsp]
    subst hcd
    rcases Bool.or_eq_true .. |>.mp hcond with h1 | h1
    · rcases Bool.or_eq_true .. |>.mp h1 with h2 | h2
      · rcases Bool.or_eq_true .. |>.mp h2 with h3 | h3
        · exact Or.inl h3
        · exact absurd h3 hsp
      · exact Or.inr (Or.inl (by simpa using h2))
    · exact Or.inr (Or.inr (by simpa using h1))

/-- The accumulated `filename_parts` construction of the code coincides with
the specification-style case-analysis formulation. -/
theorem saveJobsFilename_eq_spec (date role : String)
    (city country : Option String) (n : Int) :
    saveJobsFilename date role city country n
      = specSaveJobsFilename date role city country n := by
  cases city with
  | none =>
    cases country with
    | none => rfl
    | some k =>
      by_cases hk : k = ""
      · simp [saveJobsFilename, specSaveJobsFilename, saveJobsFilenameParts,
          pyTruthy, hk]
      · simp [saveJobsFilename, specSaveJobsFilename, saveJobsFilenameParts,
          pyTruthy, hk]
  | some cty =>
    cases country with
    | none =>
      by_cases hc : cty = ""
      · simp [saveJobsFilename, specSaveJobsFilename, saveJobsFilenameParts,
          pyTruthy, hc]
      · simp [saveJobsFilename, specSaveJobsFilename, saveJobsFilenameParts,
          pyTruthy, hc]
    | some k =>
      by_cases hc : cty = "" <;> by_cases hk : k = "" <;>
        simp [saveJobsFilename, specSaveJobsFilename, saveJobsFilenameParts,
          pyTruthy, hc, hk]

theorem containsB_append_right {pat b : List Char}
    (h : containsB pat b = true) (a : List Char) :
    containsB pat (a ++ b) = true := by
  induction a with
  | nil => simpa using h
  | cons x xs ih =>
    have hstep : containsB pat (x :: (xs ++ b))
        = (pat.isPrefixOf (x :: (xs ++ b)) || containsB pat (xs ++ b)) := rfl
    show containsB pat (x :: (xs ++ b)) = true
    rw [hstep, ih, Bool.or_true]

/-! ## The claims -/

/-- Claim C1 counterexample: `market_analysis(role="Engineer", city="Zurich",
country=None)` does NOT fail with `CityRequiresCountry`; it succeeds and
returns a rendered document. -/
theorem claim_C1_counterexample :
    analyzeJobMarket "Engineer" (some "Zurich") none none 5
        ≠ Except.error ValidationError.CityRequiresCountry ∧
      (analyzeJobMarket "Engineer" (some "Zurich") none none 5).isOk = true := by
  constructor
  · decide
  · decide

/-- Claim C1 (amended): `market_analysis` performs no cross-field
city/country validation.  No input ever produces `CityRequiresCountry`, and
any request with a non-empty role, an in-range job count, a city and no
country renders a document; the cross-field rule survives only as checklist
text inside the rendered prompt. -/
theorem claim_C1_no_cross_field_check :
    ∀ (role : String) (city country : Option String)
      (platform : Option Platform) (n : Int),
    analyzeJobMarket role city country platform n
        ≠ Except.error ValidationError.CityRequiresCountry ∧
      (role ≠ "" → 1 ≤ n → n ≤ 20 →
        (analyzeJobMarket role city none platform n).isOk = true) := by
  intro role city country platform n
  constructor
  · unfold analyzeJobMarket
    by_cases h1 : role.length < 1
    · rw [if_pos h1]
      decide
    · rw [if_neg h1]
      by_cases h2 : n < 1 ∨ 20 < n
      · rw [if_pos h2]
        decide
      · rw [if_neg h2]
        intro hcontr
        exact Except.noConfusion hcontr
  · intro hrole h1 h2
    unfold analyzeJobMarket
    rw [if_neg (ne_empty_length hrole), if_neg (by omega)]
    rfl

theorem claim_C1_no_cross_field_check_witness :
    (analyzeJobMarket "Engineer" (some "Zurich") none none 5).isOk = true :=
  (claim_C1_no_cross_field_check "Engineer" (some "Zurich") none none 5).2
    (by decide) (by decide) (by decide)

/-- Claim C2 counterexample: `generate_resume` has no date parameter; the
filename always uses the current date, so when the current date is
`2099-12-31` the claimed filename `2024-03-01_...` is not produced. -/
theorem claim_C2_counterexample :
    (generateResumePrompt "2099-12-31" "/out" "Senior Data Scientist"
          "Acme Corp." "jd").map Rendered.filename
        = Except.ok (some "2099-12-31_acme_corp_senior_data_scientist_resume.md") ∧
      (generateResumePrompt "2099-12-31" "/out" "Senior Data Scientist"
          "Acme Corp." "jd").map Rendered.filename
        ≠ Except.ok (some "2024-03-01_acme_corp_senior_data_scientist_resume.md") := by
  constructor
  · decide
  · decide

/-- Claim C2 (amended): `generate_resume` does not accept a caller-supplied
date; it always uses the current date.  The filename is
`{current_date}_{sanitized(company)}_{sanitized(role)}_resume.md`; in
particular, whenever the current date is `2024-03-01`, role "Senior Data
Scientist" and company "Acme Corp." give exactly
`2024-03-01_acme_corp_senior_data_scientist_resume.md`. -/
theorem claim_C2_resume_filename :
    ∀ (today save_directory role company job_description : String),
    save_directory ≠ "" → company ≠ "" →
    (generateResumePrompt today save_directory role company
          job_description).map Rendered.filename
        = Except.ok (some (today ++ "_" ++ sanitizeForFilename company ++ "_"
            ++ sanitizeForFilename role ++ "_resume.md")) ∧
      generateResumeFilename today "Senior Data Scientist" "Acme Corp."
        = today ++ "_acme_corp_senior_data_scientist_resume.md" := by
  intro today dir role company jd hdir hcomp
  constructor
  · unfold generateResumePrompt
    rw [if_neg (ne_empty_length hdir), if_neg (ne_empty_length hcomp)]
    rfl
  · unfold generateResumeFilename
    rw [(by decide : sanitizeForFilename "Acme Corp." = "acme_corp"),
      (by decide : sanitizeForFilename "Senior Data Scientist"
        = "senior_data_scientist")]
    apply String.ext
    simp only [String.data_append, List.append_assoc]
    congr 1

theorem claim_C2_resume_filename_witness :
    (generateResumePrompt "2024-03-01" "/out" "Senior Data Scientist"
        "Acme Corp." "jd").map Rendered.filename
      = Except.ok (some "2024-03-01_acme_corp_senior_data_scientist_resume.md") := by
  have h := claim_C2_resume_filename "2024-03-01" "/out" "Senior Data Scientist"
    "Acme Corp." "jd" (by decide) (by decide)
  rw [h.1]
  decide

/-- Claim C3 counterexample: the legacy strip policy does NOT strip
non-ASCII letters (Python `isalnum` is Unicode aware): "São Paulo"
sanitizes to `São_Paulo`, not the claimed `So_Paulo`. -/
theorem claim_C3_counterexample :
    legacySanitize "São Paulo" = "São_Paulo" ∧
      legacySanitize "São Paulo" ≠ "So_Paulo" := by
  constructor
  · decide
  · decide

/-- Claim C3 (amended): the legacy strip policy keeps Unicode alphanumerics
(Python `str.isalnum`) plus space, `-` and `_`, strips every other
character, trims surrounding whitespace, then replaces spaces with `_`,
preserving case; `save_jobs(role="Site Reliability Engineer!", city="São
Paulo")` produces tokens `Site_Reliability_Engineer` and `São_Paulo`. -/
theorem claim_C3_legacy_policy :
    (∀ (s : String), ∀ c ∈ (legacySanitize s).toList,
        pyIsAlnum c = true ∨ c = '-' ∨ c = '_') ∧
      legacySanitize "Site Reliability Engineer!" = "Site_Reliability_Engineer" ∧
      legacySanitize "São Paulo" = "São_Paulo" ∧
      (saveJobs "/jobs" "2024-05-01" "Site Reliability Engineer!"
            (some "São Paulo") none 5).map Rendered.filename
        = Except.ok (some "2024-05-01_Site_Reliability_Engineer_São_Paulo_5.json") := by
  refine ⟨fun s => legacy_char_class s, ?_, ?_, ?_⟩
  · decide
  · decide
  · decide

theorem claim_C3_legacy_policy_witness :
    pyIsAlnum 'ã' = true ∨ 'ã' = '-' ∨ 'ã' = '_' :=
  claim_C3_legacy_policy.1 "São Paulo" 'ã' (by decide)

/-- Claim C4 counterexample: the filename-token sanitizer maps the
non-empty string `!` to the empty string, and a non-ASCII input yields
output outside `[a-z0-9_-]` (`São` gives `são`). -/
theorem claim_C4_counterexample :
    (sanitizeForFilename "!" = "" ∧ ("!" : String) ≠ "") ∧
      ((sanitizeForFilename "São").toList.all isAsciiToken) = false := by
  constructor
  · constructor
    · decide
    · decide
  · decide

/-- Claim C4 (amended): for every input, the sanitizer's output has no
leading, trailing or duplicate underscores, and every output character is
`-`, `_`, or a lower-case-fixed alphanumeric character; when the input is
pure ASCII the output draws only from `[a-z0-9_-]`.  (The original claim's
"only `[a-z0-9_-]`" fails for non-ASCII input, and "empty only if the
input was empty" fails for all-punctuation input such as `!`.) -/
theorem claim_C4_canonical_form :
    ∀ (s : String),
    (sanitizeForFilename s).toList.head? ≠ some '_' ∧
      (sanitizeForFilename s).toList.getLast? ≠ some '_' ∧
      (sanitizeForFilename s).toList.Chain' notBothUnderscore ∧
      (∀ c ∈ (sanitizeForFilename s).toList, SanCharOK c) ∧
      ((∀ c ∈ s.toList, c.toNat < 128) →
        ∀ c ∈ (sanitizeForFilename s).toList, isAsciiToken c = true) := by
  intro s
  have hparts := sanitizeForFilename_parts s
  have htl : (sanitizeForFilename s).toList
      = joinU ((splitU ((s.toList.map pyToLower).map underscoreStep)).filter
        (fun p => !p.isEmpty)) := rfl
  refine ⟨?_, ?_, ?_, sanitize_char_ok s, fun hs => sanitize_ascii s hs⟩
  · rw [htl]
    exact joinU_head _ hparts
  · rw [htl]
    exact joinU_getLast _ hparts
  · rw [htl]
    exact joinU_chain _ hparts

theorem claim_C4_canonical_form_witness :
    (sanitizeForFilename "Acme Corp.").toList.head? ≠ some '_' ∧
      isAsciiToken 'a' = true := by
  have h := claim_C4_canonical_form "Acme Corp."
  exact ⟨h.1, h.2.2.2.2 (by decide) 'a' (by decide)⟩

/-- Claim C5 counterexample: an all-punctuation role sanitizes to the empty
token, and `save_jobs` does NOT omit the empty segment: the filename is
`2024-01-01__5.json` (with a doubled underscore), not `2024-01-01_5.json`. -/
theorem claim_C5_counterexample :
    (saveJobs "/jobs" "2024-01-01" "!!!" none none 5).map Rendered.filename
        = Except.ok (some "2024-01-01__5.json") ∧
      (saveJobs "/jobs" "2024-01-01" "!!!" none none 5).map Rendered.filename
        ≠ Except.ok (some "2024-01-01_5.json") := by
  constructor
  · decide
  · decide

/-- Claim C5 (amended): for every in-range `save_jobs` request the returned
filename is the `_`-joined `{date}_{role}_{city}_{country}_{n}.json` built
from legacy-sanitized tokens, where the city and country segments are
omitted exactly when the raw value is absent or empty; a segment whose
sanitized token is empty is NOT omitted and appears as an empty segment
between two underscores. -/
theorem claim_C5_filename_structure :
    ∀ (jobs_dir date role : String) (city country : Option String) (n : Int),
    1 ≤ n → n ≤ 100 →
    (saveJobs jobs_dir date role city country n).map Rendered.filename
      = Except.ok (some (specSaveJobsFilename date role city country n)) := by
  intro jobs_dir date role city country n h1 h2
  unfold saveJobs
  rw [if_neg (by omega)]
  show Except.ok (some (saveJobsFilename date role city country n)) = _
  rw [saveJobsFilename_eq_spec]

theorem claim_C5_filename_structure_witness :
    (saveJobs "/jobs" "2024-01-01" "Engineer" (some "Zurich") none 5).map
        Rendered.filename
      = Except.ok (some "2024-01-01_Engineer_Zurich_5.json") := by
  have h := claim_C5_filename_structure "/jobs" "2024-01-01" "Engineer"
    (some "Zurich") none 5 (by decide) (by decide)
  rw [h]
  decide

/-- Claim C6: `mesh_resumes` rejects a `resume_mesh_filename` that does not
match `^[a-zA-Z0-9_-]+\.md$` with `InvalidFilenamePattern` (no coerced
filename is rendered), and when the pattern matches, the returned filename
is exactly `{resume_mesh_filename}_{date}.md`. -/
theorem claim_C6_mesh_validation :
    ∀ (dir fn d : String), dir ≠ "" →
    (matchesMeshPattern fn = false →
        meshResumes dir fn d = Except.error ValidationError.InvalidFilenamePattern) ∧
      (matchesMeshPattern fn = true →
        meshResumes dir fn d = Except.ok ⟨meshResumesBody dir fn d,
          some (fn ++ "_" ++ d ++ ".md")⟩) := by
  intro dir fn d hdir
  unfold meshResumes
  rw [if_neg (ne_empty_length hdir)]
  constructor
  · intro hf
    have hcond : (!(matchesMeshPattern fn)) = true := by
      rw [hf]
      rfl
    rw [if_pos hcond]
  · intro ht
    have hcond : ¬((!(matchesMeshPattern fn)) = true) := by
      rw [ht]
      simp
    rw [if_neg hcond]
    rfl

theorem claim_C6_mesh_validation_witness :
    meshResumes "/out" "bad name.md" "2024-01-01"
        = Except.error ValidationError.InvalidFilenamePattern ∧
      meshResumes "/out" "resume_mesh.md" "2024-01-01"
        = Except.ok ⟨meshResumesBody "/out" "resume_mesh.md" "2024-01-01",
            some "resume_mesh.md_2024-01-01.md"⟩ := by
  have h1 := (claim_C6_mesh_validation "/out" "bad name.md" "2024-01-01"
    (by decide)).1 (by decide)
  have h2 := (claim_C6_mesh_validation "/out" "resume_mesh.md" "2024-01-01"
    (by decide)).2 (by decide)
  refine ⟨h1, ?_⟩
  rw [h2]
  have hfn : ("resume_mesh.md" ++ "_" ++ "2024-01-01" ++ ".md" : String)
      = "resume_mesh.md_2024-01-01.md" := by decide
  rw [hfn]

/-- Claim C7: a job count outside the kind-specific range (1-20 for
`market_analysis`, 1-100 for `save_jobs`) fails with `OutOfRange` instead
of rendering a document (for `market_analysis` assuming the role field
itself is valid, since pydantic reports an empty role as well). -/
theorem claim_C7_out_of_range :
    ∀ (role jobs_dir date role2 : String)
      (city country city2 country2 : Option String)
      (platform : Option Platform) (n m : Int),
    (role ≠ "" → (n < 1 ∨ 20 < n) →
        analyzeJobMarket role city country platform n
          = Except.error ValidationError.OutOfRange) ∧
      ((m < 1 ∨ 100 < m) →
        saveJobs jobs_dir date role2 city2 country2 m
          = Except.error ValidationError.OutOfRange) := by
  intro role jobs_dir date role2 city country city2 country2 platform n m
  constructor
  · intro hrole hn
    unfold analyzeJobMarket
    rw [if_neg (ne_empty_length hrole), if_pos hn]
  · intro hm
    unfold saveJobs
    rw [if_pos hm]

theorem claim_C7_out_of_range_witness :
    analyzeJobMarket "Engineer" none none none 25
        = Except.error ValidationError.OutOfRange ∧
      saveJobs "/jobs" "2024-01-01" "Engineer" none none 101
        = Except.error ValidationError.OutOfRange := by
  have h := claim_C7_out_of_range "Engineer" "/jobs" "2024-01-01" "Engineer"
    none none none none none 25 101
  exact ⟨h.1 (by decide) (by decide), h.2 (by decide)⟩

/-- Claim C8: the filename-token sanitizer is idempotent:
`sanitize (sanitize s) = sanitize s` for every string `s`. -/
theorem claim_C8_sanitize_idempotent (s : String) :
    sanitizeForFilename (sanitizeForFilename s) = sanitizeForFilename s :=
  sanitizeForFilename_idem_core s

/-- Claim C9: every render operation is deterministic: two calls with
identical arguments (including an identical date - explicit for
`save_jobs`/`mesh_resumes`, the fixed current date for the resume and
cover-letter kinds) produce byte-identical documents and identical
filenames. -/
theorem claim_C9_deterministic :
    ∀ (role : String) (city country : Option String)
      (platform : Option Platform) (n : Int)
      (jobs_dir date fn dir today company jd : String)
      (role2 : String) (city2 country2 : Option String)
      (platform2 : Option Platform) (n2 : Int)
      (jobs_dir2 date2 fn2 dir2 today2 company2 jd2 : String),
    role = role2 → city = city2 → country = country2 → platform = platform2 →
    n = n2 → jobs_dir = jobs_dir2 → date = date2 → fn = fn2 → dir = dir2 →
    today = today2 → company = company2 → jd = jd2 →
    analyzeJobMarket role city country platform n
        = analyzeJobMarket role2 city2 country2 platform2 n2 ∧
      saveJobs jobs_dir date role city country n
        = saveJobs jobs_dir2 date2 role2 city2 country2 n2 ∧
      meshResumes dir fn date = meshResumes dir2 fn2 date2 ∧
      generateResumePrompt today dir role company jd
        = generateResumePrompt today2 dir2 role2 company2 jd2 ∧
      generateCoverLetterPrompt today dir role company jd
        = generateCoverLetterPrompt today2 dir2 role2 company2 jd2 := by
  intro role city country platform n jobs_dir date fn dir today company jd
    role2 city2 country2 platform2 n2 jobs_dir2 date2 fn2 dir2 today2 company2 jd2
    h1 h2 h3 h4 h5 h6 h7 h8 h9 h10 h11 h12
  subst h1
  subst h2
  subst h3
  subst h4
  subst h5
  subst h6
  subst h7
  subst h8
  subst h9
  subst h10
  subst h11
  subst h12
  exact ⟨rfl, rfl, rfl, rfl, rfl⟩

theorem claim_C9_deterministic_witness :
    analyzeJobMarket "Engineer" none none none 5
        = analyzeJobMarket "Engineer" none none none 5 ∧
      saveJobs "/jobs" "2024-01-01" "Engineer" none none 5
        = saveJobs "/jobs" "2024-01-01" "Engineer" none none 5 ∧
      meshResumes "/out" "resume_mesh.md" "2024-01-01"
        = meshResumes "/out" "resume_mesh.md" "2024-01-01" ∧
      generateResumePrompt "2024-01-01" "/out" "Engineer" "Acme" "jd"
        = generateResumePrompt "2024-01-01" "/out" "Engineer" "Acme" "jd" ∧
      generateCoverLetterPrompt "2024-01-01" "/out" "Engineer" "Acme" "jd"
        = generateCoverLetterPrompt "2024-01-01" "/out" "Engineer" "Acme" "jd" :=
  claim_C9_deterministic "Engineer" none none none 5 "/jobs" "2024-01-01"
    "resume_mesh.md" "/out" "2024-01-01" "Acme" "jd" "Engineer" none none none 5
    "/jobs" "2024-01-01" "resume_mesh.md" "/out" "2024-01-01" "Acme" "jd"
    rfl rfl rfl rfl rfl rfl rfl rfl rfl rfl rfl rfl

/-- Claim C10: when city, country and platform are all absent (`None`), the
rendered `market_analysis` document interpolates the literal text `None` at
the corresponding places: it contains the substrings
"City: \x60None\x60", "Country: \x60None\x60" and
"**Platform:** \x60None\x60". -/
theorem claim_C10_none_literal (role : String) (n : Int) :
    strContainsB "City: `None`" (analyzeJobMarketBody role none none none n) = true ∧
      strContainsB "Country: `None`"
        (analyzeJobMarketBody role none none none n) = true ∧
      strContainsB "**Platform:** `None`"
        (analyzeJobMarketBody role none none none n) = true := by
  refine ⟨?_, ?_, ?_⟩ <;>
  · unfold strContainsB analyzeJobMarketBody
    simp only [String.data_append, List.append_assoc, pyStrOpt, platformStr]
    iterate 12 apply containsB_append_right
    decide

end IamMcp
